import Mathlib

/-
Shallow embedding of the lifecycle-orchestration core of the
lps-ufrj-br/datacenter repository (src/datacenter/proxmox/cluster.py and
src/datacenter/proxmox/vm.py).

The external Executor Gateway (the Playbook base class from
datacenter.ansible) is modelled by an oracle of successive remote-execution
results: the n-th remote call (run_shell / run of a playbook script) returns
the boolean given by the oracle at index n.  Every facade method is embedded
as a function from the oracle and the index of the next remote call to a
result together with the trace of observable events it produced: operator
narrations (print), settle waits (time.sleep), remote shell executions,
remote playbook-script executions, and liveness pings.
-/

namespace Datacenter

/-- A Command from datacenter.ansible as described by §4.1 of the design:
an ordered list of instruction strings under a human-readable label.
`Command(label)` constructs it empty and `command += instr` appends. -/
structure Command where
  label : String
  instructions : List String
deriving Repr, DecidableEq

/-- Python `Command(label)`: a fresh Command with no instructions. -/
def Command.new (label : String) : Command := ⟨label, []⟩

/-- Python `command += instruction`: append one instruction in order. -/
def Command.append (c : Command) (instr : String) : Command :=
  ⟨c.label, c.instructions ++ [instr]⟩

/-- Modelled from the spec: the call operator of datacenter.ansible.Command
(used as `command()` inside VM.configure_network) is outside src/; §4.1
renders the ordered instruction list as a single shell-joinable string. -/
def Command.render (c : Command) : String :=
  String.intercalate " && " c.instructions

/-- One observable action of the orchestration core. -/
inductive Event where
  | narrate : String → Event
  | wait : Nat → Event
  | runShell : String → Command → Event
  | runScript : String → String → List (String × String) → Event
  | ping : String → Event
deriving Repr, DecidableEq

/-- Results of the successive remote executions performed through the
external Executor Gateway: the n-th remote call returns `ω n`. -/
def Oracle := Nat → Bool

/-- Outcome of a bool-returning facade method: the returned boolean, the
events emitted, and the index of the next unused oracle entry. -/
structure StepOut where
  ok : Bool
  events : List Event
  k : Nat
deriving Repr, DecidableEq

/-- Outcome of a facade method whose Python body has no return statement
(the call evaluates to None, modelled as `ret = none`). -/
structure OptOut where
  ret : Option Bool
  events : List Event
  k : Nat
deriving Repr, DecidableEq

/-- The cluster attributes read through `self.cluster(key)`; the
configuration snapshot also carries the shared join secret returned by the
external accessor `get_master_key()`. -/
structure ClusterCfg where
  host : String
  ip_address : String
  master_key : String
deriving Repr, DecidableEq

/-- The Cluster facade (cluster.py).  `cluster_config` is the snapshot
fetched at construction; only the fields the operations read are kept. -/
structure Cluster where
  cluster_name : String
  dry_run : Bool
  verbose : Bool
  cfg : ClusterCfg
deriving Repr, DecidableEq

/-- Cluster.__init__ with defaults dry_run=False, verbose=False; a `none`
argument means the caller did not pass the flag. -/
def Cluster.init (cluster_name : String) (dry_run verbose : Option Bool)
    (cfg : ClusterCfg) : Cluster :=
  { cluster_name := cluster_name
    dry_run := dry_run.getD false
    verbose := verbose.getD false
    cfg := cfg }

/-- Several prints interpolate `self.cluster` — the bound method object,
not a string.  Python renders it as `<bound method Cluster.cluster of ...>`
with a memory address, elided here since no behaviour depends on it. -/
def Cluster.clusterRepr (_ : Cluster) : String :=
  "<bound method Cluster.cluster of <Cluster object>>"

/-- run_shell(self.cluster_name, command): one remote execution against the
whole named host group. -/
def Cluster.run_shell_on_all (c : Cluster) (ω : Oracle) (k : Nat)
    (command : Command) : StepOut :=
  ⟨ω k, [Event.runShell c.cluster_name command], k + 1⟩

/-- run(script_name, self.cluster_name, params): one remote playbook-script
execution against the whole named host group. -/
def Cluster.run_script_on_all (c : Cluster) (ω : Oracle) (k : Nat)
    (script_name : String) (params : List (String × String)) : StepOut :=
  ⟨ω k, [Event.runScript script_name c.cluster_name params], k + 1⟩

/-- run_shell(cluster_master_host, command): one remote execution against
the designated master host (attribute `host`). -/
def Cluster.run_shell_on_master_host (c : Cluster) (ω : Oracle) (k : Nat)
    (command : Command) : StepOut :=
  ⟨ω k, [Event.runShell c.cfg.host command], k + 1⟩

/-- Cluster.ping: calls self.ping_hosts(self.cluster_name); the Python body
has no return statement, so the caller receives None. -/
def Cluster.ping (c : Cluster) (_ : Oracle) (k : Nat) : OptOut :=
  ⟨none, [Event.ping c.cluster_name], k + 1⟩

/-- The command built by Cluster.reset. -/
def resetCommand : Command :=
  (((((((Command.new "reset nodes...").append
    "systemctl stop pve-cluster corosync").append
    "pmxcfs -l").append
    "rm -rf /etc/corosync/*").append
    "rm -rf /etc/pve/corosync.conf").append
    "killall pmxcfs").append
    "systemctl start pve-cluster").append
    "rm -rf /etc/pve/nodes/*"

/-- Cluster.reset: narrate, build the service-wipe command, execute it on
all member hosts. -/
def Cluster.reset (c : Cluster) (ω : Oracle) (k : Nat) : StepOut :=
  let r := c.run_shell_on_all ω k resetCommand
  ⟨r.ok,
   Event.narrate ("reset the cluster with name " ++ c.clusterRepr) :: r.events,
   r.k⟩

/-- Cluster.reboot: run the external reboot.yaml procedure on all member
hosts (params default to the empty mapping). -/
def Cluster.reboot (c : Cluster) (ω : Oracle) (k : Nat) : StepOut :=
  c.run_script_on_all ω k "reboot.yaml" []

/-- The command built by Cluster.create_cluster. -/
def createClusterCommand (c : Cluster) : Command :=
  (Command.new "create cluster...").append
    ("pvecm create " ++ c.cluster_name ++ " --votes 1")

/-- Cluster.create_cluster: narrate, then execute the single-vote creation
command on the master host only. -/
def Cluster.create_cluster (c : Cluster) (ω : Oracle) (k : Nat) : StepOut :=
  let r := c.run_shell_on_master_host ω k (createClusterCommand c)
  ⟨r.ok,
   Event.narrate ("create cluster into the host " ++ c.cfg.host ++
     " for cluster " ++ c.cluster_name) :: r.events,
   r.k⟩

/-- The params dictionary built by Cluster.create_nodes (values are wrapped
in single quotes, written \x27). -/
def createNodesParams (c : Cluster) : List (String × String) :=
  [("ip_address", "\x27" ++ c.cfg.ip_address ++ "\x27"),
   ("master_key", "\x27" ++ c.cfg.master_key ++ "\x27")]

/-- Cluster.create_nodes: narrate, then run the external add_node.yaml
procedure on all member hosts with the joining IP and master credential. -/
def Cluster.create_nodes (c : Cluster) (ω : Oracle) (k : Nat) : StepOut :=
  let r := c.run_script_on_all ω k "add_node.yaml" (createNodesParams c)
  ⟨r.ok,
   Event.narrate ("add nodes into the cluster " ++ c.clusterRepr ++ "...") ::
     r.events,
   r.k⟩

/-- The URL of the node-configuration script fetched by configure_nodes. -/
def configureScriptHttp : String :=
  "https://raw.githubusercontent.com/lps-ufrj-br/datacenter/refs/heads/main/data/scripts/configure_node.py"

/-- script_http.split("/")[-1]. -/
def configureScriptName : String :=
  (configureScriptHttp.splitOn "/").getLastD ""

/-- The command built by Cluster.configure_nodes. -/
def configureNodesCommand : Command :=
  (Command.new "configure nodes...").append
    ("wget " ++ configureScriptHttp ++ " && python3 " ++ configureScriptName)

/-- Cluster.configure_nodes: run the fetched configuration script on all
member hosts; on failure narrate and return False, on success return the
result of reboot(). -/
def Cluster.configure_nodes (c : Cluster) (ω : Oracle) (k : Nat) : StepOut :=
  let r := c.run_shell_on_all ω k configureNodesCommand
  if r.ok then
    let rb := c.reboot ω r.k
    ⟨rb.ok, r.events ++ rb.events, rb.k⟩
  else
    ⟨false,
     r.events ++ [Event.narrate "it is not possible to configure nodes..."],
     r.k⟩

/-- Cluster.destroy: reset() then reboot(), neither result checked; the
Python body has no return statement, so the caller receives None. -/
def Cluster.destroy (c : Cluster) (ω : Oracle) (k : Nat) : OptOut :=
  let r1 := c.reset ω k
  let r2 := c.reboot ω r1.k
  ⟨none, r1.events ++ r2.events, r2.k⟩

/-- Cluster.create: the five-step provisioning sequence of cluster.py
lines 121-158, with its prints, sleeps and fail-fast returns in source
order. -/
def Cluster.create (c : Cluster) (ω : Oracle) (k : Nat) : StepOut :=
  let t1 := [Event.narrate ("[step 1] resetting all nodes into the cluster "
              ++ c.clusterRepr ++ "...")]
  let r1 := c.reset ω k
  let t1 := t1 ++ r1.events
  if !r1.ok then
    ⟨false, t1 ++ [Event.narrate "[step 1] it is not possible to reset all nodes"], r1.k⟩
  else
    let t2 := t1 ++ [Event.narrate ("[step 2] reboot all nodes into the cluster "
                ++ c.cluster_name ++ "...")]
    let r2 := c.reboot ω r1.k
    let t2 := t2 ++ r2.events
    if !r2.ok then
      ⟨false, t2 ++ [Event.narrate "[step 2] it is not possible to reboot all nodes"], r2.k⟩
    else
      let t3 := t2 ++ [Event.wait 30,
                 Event.narrate ("[step 3] create the cluster with name "
                   ++ c.cluster_name ++ "...")]
      let r3 := c.create_cluster ω r2.k
      let t3 := t3 ++ r3.events
      if !r3.ok then
        ⟨false, t3 ++ [Event.narrate ("[step 3] it is not possible to create the cluster with name "
                 ++ c.cluster_name)], r3.k⟩
      else
        let t4 := t3 ++ [Event.wait 10,
                   Event.narrate ("[step 4] add nodes into the cluster "
                     ++ c.cluster_name ++ "...")]
        let r4 := c.create_nodes ω r3.k
        let t4 := t4 ++ r4.events
        if !r4.ok then
          ⟨false, t4 ++ [Event.narrate ("[step 4] it is not possible to add nodes the cluster "
                   ++ c.clusterRepr)], r4.k⟩
        else
          let t5 := t4 ++ [Event.wait 5,
                     Event.narrate ("[step 5] configure all nodes into the cluster "
                       ++ c.clusterRepr ++ "...")]
          let r5 := c.configure_nodes ω r4.k
          let t5 := t5 ++ r5.events
          if !r5.ok then
            ⟨false, t5 ++ [Event.narrate ("[step 5] it is not possible to configure all nodes into the cluster "
                     ++ c.clusterRepr)], r5.k⟩
          else
            ⟨true, t5, r5.k⟩

/-- The VM attributes read through `self.vm(key)`, plus the image path the
image() accessor resolves through the images/paths configuration, and the
init-host identity `images.hostname` read at construction. -/
structure VmCfg where
  host : String
  vmid : Nat
  image_path : String
  sockets : Nat
  cores : Nat
  memory_mb : Nat
  storage : String
  vm_name : String
  ip_address : String
  pci : String
deriving Repr, DecidableEq

/-- The VM facade (vm.py). -/
structure VM where
  vm_name : String
  dry_run : Bool
  verbose : Bool
  cfg : VmCfg
  vm_init_name : String
deriving Repr, DecidableEq

/-- VM.__init__ with defaults dry_run=True, verbose=False; a `none`
argument means the caller did not pass the flag. -/
def VM.init (vm_name : String) (dry_run verbose : Option Bool)
    (cfg : VmCfg) (vm_init_name : String) : VM :=
  { vm_name := vm_name
    dry_run := dry_run.getD true
    verbose := verbose.getD false
    cfg := cfg
    vm_init_name := vm_init_name }

/-- VM.ping: calls self.ping_hosts(self.vm_name); the Python body has no
return statement, so the caller receives None. -/
def VM.ping (v : VM) (_ : Oracle) (k : Nat) : OptOut :=
  ⟨none, [Event.ping v.vm_name], k + 1⟩

/-- run_shell(vm_host, command): one remote execution on the host of the
VM (attribute `host`). -/
def VM.run_shell_on_host (v : VM) (ω : Oracle) (k : Nat)
    (command : Command) : StepOut :=
  ⟨ω k, [Event.runShell v.cfg.host command], k + 1⟩

/-- run(script, target, params): one remote playbook-script execution. -/
def VM.run (_v : VM) (ω : Oracle) (k : Nat) (script target : String)
    (params : List (String × String)) : StepOut :=
  ⟨ω k, [Event.runScript script target params], k + 1⟩

/-- The command built by VM.restore. -/
def restoreCommand (v : VM) : Command :=
  (((Command.new "restore vm...").append
    ("qmrestore " ++ v.cfg.image_path ++ " " ++ toString v.cfg.vmid ++
      " --storage " ++ v.cfg.storage ++ " --unique --force")).append
    ("qm set " ++ toString v.cfg.vmid ++ " --name " ++ v.cfg.vm_name ++
      " --sockets " ++ toString v.cfg.sockets ++ " --cores " ++
      toString v.cfg.cores ++ " --memory " ++ toString v.cfg.memory_mb ++
      " --cpu host")).append
    ("qm start " ++ toString v.cfg.vmid)

/-- VM.restore: restore the image, set identity and resources, start the
VM; executed on the host of the VM. -/
def VM.restore (v : VM) (ω : Oracle) (k : Nat) : StepOut :=
  v.run_shell_on_host ω k (restoreCommand v)

/-- VM.snapshot: take a named snapshot by vmid, on the host of the VM. -/
def VM.snapshot (v : VM) (name : String) (ω : Oracle) (k : Nat) : StepOut :=
  v.run_shell_on_host ω k
    ((Command.new ("snapshot vm " ++ v.vm_name ++ "...")).append
      ("qm snapshot " ++ toString v.cfg.vmid ++ " " ++ name))

/-- VM.reboot: stop then start the VM by vmid, on the host of the VM. -/
def VM.reboot (v : VM) (ω : Oracle) (k : Nat) : StepOut :=
  v.run_shell_on_host ω k
    ((Command.new ("reboot vm " ++ v.vm_name ++ "...")).append
      ("qm stop " ++ toString v.cfg.vmid ++ " && qm start " ++
        toString v.cfg.vmid))

/-- The URL of the network-configuration script fetched by
configure_network. -/
def networkScriptHttp : String :=
  "https://raw.githubusercontent.com/lps-ufrj-br/datacenter/refs/heads/main/data/scripts/configure_network.sh"

/-- script_http.split("/")[-1]. -/
def networkScriptName : String :=
  (networkScriptHttp.splitOn "/").getLastD ""

/-- The command built by VM.configure_network. -/
def networkCommand (v : VM) : Command :=
  (Command.new ("configure network on vm " ++ v.vm_name ++ "...")).append
    ("wget " ++ networkScriptHttp ++ " && bash " ++ networkScriptName ++
      " " ++ v.vm_name ++ " " ++ v.cfg.ip_address)

/-- The params dictionary built by VM.configure_network (quoted values are
wrapped in single quotes, written \x27). -/
def networkParams (v : VM) : List (String × String) :=
  [("command", "\x27" ++ (networkCommand v).render ++ "\x27"),
   ("ip_address", "\x27" ++ v.cfg.ip_address ++ "\x27"),
   ("vm_name", v.vm_name)]

/-- VM.configure_network: run the configure_network.yaml procedure against
the init-host identity with the rendered command and the IP of the VM. -/
def VM.configure_network (v : VM) (ω : Oracle) (k : Nat) : StepOut :=
  v.run ω k "configure_network.yaml" v.vm_init_name (networkParams v)

/-- The command built by VM.configure_options: the PCI-passthrough line is
appended only when the configured device string is non-empty, and the
boot-on-startup line is always appended. -/
def configureOptionsCommand (v : VM) : Command :=
  let command := Command.new "set VM options..."
  let command :=
    if v.cfg.pci ≠ "" then
      command.append ("qm set " ++ toString v.cfg.vmid ++ " -hostpci0 " ++
        v.cfg.pci)
    else command
  command.append ("qm set " ++ toString v.cfg.vmid ++ " --onboot 1")

/-- VM.configure_options: apply the option command on the host of the VM. -/
def VM.configure_options (v : VM) (ω : Oracle) (k : Nat) : StepOut :=
  v.run_shell_on_host ω k (configureOptionsCommand v)

/-- VM.destroy: stop then destroy the VM and its unreferenced disks, on
the host of the VM. -/
def VM.destroy (v : VM) (ω : Oracle) (k : Nat) : StepOut :=
  v.run_shell_on_host ω k
    ((Command.new ("destroy vm " ++ v.vm_name ++ "...")).append
      ("qm stop " ++ toString v.cfg.vmid ++ " && qm destroy " ++
        toString v.cfg.vmid ++ " --destroy-unreferenced-disks"))

/-- VM.create: the provisioning sequence of vm.py lines 123-141, with its
prints, the unconditional sleep(40) after restore, the fail-fast returns,
and the unchecked snapshot and reboot tail in source order. -/
def VM.create (v : VM) (snapname : String) (ω : Oracle) (k : Nat) : StepOut :=
  let t1 := [Event.narrate "restore image into the host..."]
  let r1 := v.restore ω k
  let t1 := t1 ++ r1.events ++ [Event.wait 40]
  if !r1.ok then
    ⟨false, t1, r1.k⟩
  else
    let t2 := t1 ++ [Event.narrate ("configure network into " ++ v.vm_name)]
    let r2 := v.configure_network ω r1.k
    let t2 := t2 ++ r2.events
    if !r2.ok then
      ⟨false, t2, r2.k⟩
    else
      let t3 := t2 ++ [Event.narrate ("configure options into " ++ v.vm_name)]
      let r3 := v.configure_options ω r2.k
      let t3 := t3 ++ r3.events
      if !r3.ok then
        ⟨false, t3, r3.k⟩
      else
        let t4 := t3 ++ [Event.narrate "take a snapshot..."]
        let r4 := v.snapshot snapname ω r3.k
        let r5 := v.reboot ω r4.k
        ⟨true, t4 ++ r4.events ++ r5.events, r5.k⟩

/-
Trace observations used to state the claims.
-/

/-- Whether `p` is a prefix of the character list `s`; recursion is on the
pattern only, so it evaluates whenever the pattern is concrete, even when
the tail of `s` is symbolic. -/
def charsHasPrefix (p s : List Char) : Bool :=
  match p with
  | [] => true
  | a :: as =>
    match s with
    | [] => false
    | b :: bs => a == b && charsHasPrefix as bs

/-- Whether `p` is a prefix of the string `s`. -/
def strHasPrefix (p s : String) : Bool := charsHasPrefix p.data s.data

/-- The duration of a settle wait, if the event is one. -/
def Event.waitTime : Event → Option Nat
  | .wait d => some d
  | _ => none

/-- The durations of the settle waits of a trace, in order. -/
def settleWaits (es : List Event) : List Nat := es.filterMap Event.waitTime

/-- The step number of a step-numbered narration ("[step N] ..."), if the
event is one. -/
def stepNarrTag : Event → Option Nat
  | .narrate m =>
      if strHasPrefix "[step 1]" m then some 1
      else if strHasPrefix "[step 2]" m then some 2
      else if strHasPrefix "[step 3]" m then some 3
      else if strHasPrefix "[step 4]" m then some 4
      else if strHasPrefix "[step 5]" m then some 5
      else none
  | _ => none

/-- The step numbers of the step-numbered narrations of a trace, in order. -/
def numberedSteps (es : List Event) : List Nat := es.filterMap stepNarrTag

/-- Identifies which Cluster.create step a remote execution belongs to, by
the signature of the command it dispatches: 1 reset, 2 reboot (the
reboot.yaml procedure), 3 create cluster, 4 add nodes, 5 configure
nodes. -/
def clusterStepTag : Event → Option Nat
  | .runShell _ command =>
      if strHasPrefix "reset nodes..." command.label then some 1
      else if strHasPrefix "create cluster..." command.label then some 3
      else if strHasPrefix "configure nodes..." command.label then some 5
      else none
  | .runScript script _ _ =>
      if script = "reboot.yaml" then some 2
      else if script = "add_node.yaml" then some 4
      else none
  | _ => none

/-- The Cluster.create steps attempted along a trace, in dispatch order. -/
def clusterSteps (es : List Event) : List Nat := es.filterMap clusterStepTag

/-- Identifies which VM.create step a remote execution belongs to, by the
signature of the command it dispatches: 1 restore, 2 configure network,
3 configure options, 4 snapshot, 5 reboot. -/
def vmStepTag : Event → Option Nat
  | .runShell _ command =>
      if strHasPrefix "restore vm..." command.label then some 1
      else if strHasPrefix "set VM options..." command.label then some 3
      else if strHasPrefix "snapshot vm " command.label then some 4
      else if strHasPrefix "reboot vm " command.label then some 5
      else none
  | .runScript script _ _ =>
      if script = "configure_network.yaml" then some 2 else none
  | _ => none

/-- The VM.create steps attempted along a trace, in dispatch order. -/
def vmSteps (es : List Event) : List Nat := es.filterMap vmStepTag

/-
Evaluation lemmas for the step tags on the events the facades emit.
-/

@[simp] lemma clusterStepTag_narrate (m : String) :
    clusterStepTag (Event.narrate m) = none := rfl

@[simp] lemma clusterStepTag_wait (d : Nat) :
    clusterStepTag (Event.wait d) = none := rfl

@[simp] lemma clusterStepTag_ping (t : String) :
    clusterStepTag (Event.ping t) = none := rfl

@[simp] lemma clusterStepTag_reset (t : String) :
    clusterStepTag (Event.runShell t resetCommand) = some 1 := rfl

@[simp] lemma clusterStepTag_reboot (t : String) :
    clusterStepTag (Event.runScript "reboot.yaml" t []) = some 2 := rfl

@[simp] lemma clusterStepTag_createCluster (t : String) (c : Cluster) :
    clusterStepTag (Event.runShell t (createClusterCommand c)) = some 3 := rfl

@[simp] lemma clusterStepTag_addNode (t : String) (c : Cluster) :
    clusterStepTag (Event.runScript "add_node.yaml" t (createNodesParams c)) = some 4 := rfl

@[simp] lemma clusterStepTag_configure (t : String) :
    clusterStepTag (Event.runShell t configureNodesCommand) = some 5 := rfl

@[simp] lemma vmStepTag_narrate (m : String) :
    vmStepTag (Event.narrate m) = none := rfl

@[simp] lemma vmStepTag_wait (d : Nat) :
    vmStepTag (Event.wait d) = none := rfl

@[simp] lemma vmStepTag_restore (t : String) (v : VM) :
    vmStepTag (Event.runShell t (restoreCommand v)) = some 1 := rfl

@[simp] lemma vmStepTag_network (t : String) (ps : List (String × String)) :
    vmStepTag (Event.runScript "configure_network.yaml" t ps) = some 2 := rfl

@[simp] lemma vmStepTag_options (t : String) (v : VM) :
    vmStepTag (Event.runShell t (configureOptionsCommand v)) = some 3 := by
  by_cases h : v.cfg.pci = "" <;>
    simp [vmStepTag, configureOptionsCommand, Command.new, Command.append,
      strHasPrefix, charsHasPrefix, h]

@[simp] lemma vmStepTag_snapshot (t : String) (v : VM) (instr : String) :
    vmStepTag (Event.runShell t
      ((Command.new ("snapshot vm " ++ v.vm_name ++ "...")).append instr)) = some 4 := rfl

@[simp] lemma vmStepTag_vmReboot (t : String) (v : VM) (instr : String) :
    vmStepTag (Event.runShell t
      ((Command.new ("reboot vm " ++ v.vm_name ++ "...")).append instr)) = some 5 := rfl

/-
Concrete sample entities used by witnesses and counterexamples.
-/

/-- A concrete cluster c1 used to evaluate the theorems on an input. -/
def sampleCluster : Cluster :=
  ⟨"c1", false, false, ⟨"host01", "146.164.147.10", "masterkey01"⟩⟩

/-- A concrete VM v1 used to evaluate the theorems on an input. -/
def sampleVM : VM :=
  ⟨"v1", true, false,
   ⟨"host02", 101, "/mnt/pve/images/base.vma.zst", 2, 8, 16384,
    "storage01", "v1", "146.164.147.21", "0000:08:00"⟩,
   "vm-init"⟩

/-- An environment in which every remote execution succeeds. -/
def allTrue : Oracle := fun _ => true

/-- An environment in which every remote execution fails. -/
def allFalse : Oracle := fun _ => false

/-- An environment in which only the first n remote executions succeed. -/
def trueBelow (n : Nat) : Oracle := fun i => decide (i < n)

/-
Claim theorems.
-/

/-- C1: when all five steps succeed (six remote executions, counting the
final reboot triggered inside configure_nodes), Cluster.create returns
success, its trace narrates exactly the five numbered steps in the
documented order (reset, reboot, create cluster, add nodes, configure
nodes), and it performs exactly the settle waits 30, 10 and 5 (45 total),
placed after the reboot, create-cluster and add-nodes steps
respectively, as the explicit trace shows. -/
theorem claim1_cluster_create_success (c : Cluster) (ω : Oracle) (k : Nat)
    (h0 : ω k = true) (h1 : ω (k + 1) = true) (h2 : ω (k + 2) = true)
    (h3 : ω (k + 3) = true) (h4 : ω (k + 4) = true) (h5 : ω (k + 5) = true) :
    c.create ω k =
      ⟨true,
       [Event.narrate ("[step 1] resetting all nodes into the cluster " ++ c.clusterRepr ++ "..."),
        Event.narrate ("reset the cluster with name " ++ c.clusterRepr),
        Event.runShell c.cluster_name resetCommand,
        Event.narrate ("[step 2] reboot all nodes into the cluster " ++ c.cluster_name ++ "..."),
        Event.runScript "reboot.yaml" c.cluster_name [],
        Event.wait 30,
        Event.narrate ("[step 3] create the cluster with name " ++ c.cluster_name ++ "..."),
        Event.narrate ("create cluster into the host " ++ c.cfg.host ++ " for cluster " ++ c.cluster_name),
        Event.runShell c.cfg.host (createClusterCommand c),
        Event.wait 10,
        Event.narrate ("[step 4] add nodes into the cluster " ++ c.cluster_name ++ "..."),
        Event.narrate ("add nodes into the cluster " ++ c.clusterRepr ++ "..."),
        Event.runScript "add_node.yaml" c.cluster_name (createNodesParams c),
        Event.wait 5,
        Event.narrate ("[step 5] configure all nodes into the cluster " ++ c.clusterRepr ++ "..."),
        Event.runShell c.cluster_name configureNodesCommand,
        Event.runScript "reboot.yaml" c.cluster_name []], k + 6⟩ ∧
    numberedSteps (c.create ω k).events = [1, 2, 3, 4, 5] ∧
    settleWaits (c.create ω k).events = [30, 10, 5] := by
  have h : c.create ω k =
      ⟨true,
       [Event.narrate ("[step 1] resetting all nodes into the cluster " ++ c.clusterRepr ++ "..."),
        Event.narrate ("reset the cluster with name " ++ c.clusterRepr),
        Event.runShell c.cluster_name resetCommand,
        Event.narrate ("[step 2] reboot all nodes into the cluster " ++ c.cluster_name ++ "..."),
        Event.runScript "reboot.yaml" c.cluster_name [],
        Event.wait 30,
        Event.narrate ("[step 3] create the cluster with name " ++ c.cluster_name ++ "..."),
        Event.narrate ("create cluster into the host " ++ c.cfg.host ++ " for cluster " ++ c.cluster_name),
        Event.runShell c.cfg.host (createClusterCommand c),
        Event.wait 10,
        Event.narrate ("[step 4] add nodes into the cluster " ++ c.cluster_name ++ "..."),
        Event.narrate ("add nodes into the cluster " ++ c.clusterRepr ++ "..."),
        Event.runScript "add_node.yaml" c.cluster_name (createNodesParams c),
        Event.wait 5,
        Event.narrate ("[step 5] configure all nodes into the cluster " ++ c.clusterRepr ++ "..."),
        Event.runShell c.cluster_name configureNodesCommand,
        Event.runScript "reboot.yaml" c.cluster_name []], k + 6⟩ := by
    simp [Cluster.create, Cluster.reset, Cluster.run_shell_on_all, Cluster.reboot,
      Cluster.run_script_on_all, Cluster.create_cluster, Cluster.run_shell_on_master_host,
      Cluster.create_nodes, Cluster.configure_nodes, h0, h1, h2, h3, h4, h5]
  refine ⟨h, ?_, ?_⟩ <;> (rw [h]; rfl)

/-- C1 witness: the theorem evaluated on the concrete cluster c1 in the
all-success environment. -/
theorem claim1_witness :
    numberedSteps (sampleCluster.create allTrue 0).events = [1, 2, 3, 4, 5] ∧
    settleWaits (sampleCluster.create allTrue 0).events = [30, 10, 5] ∧
    (sampleCluster.create allTrue 0).ok = true := by
  have h := claim1_cluster_create_success sampleCluster allTrue 0
    rfl rfl rfl rfl rfl rfl
  exact ⟨h.2.1, h.2.2, by rw [h.1]⟩

/-- C2: for both entities, the steps create() dispatches, read off the
trace in order, form the prefix of the documented sequence that ends at
the first failed step: a later step is never dispatched after an earlier
step failed, and the steps appear exactly in the documented order.  The
sole exceptions are the fire-and-forget tail of VM.create (snapshot, step
4, and reboot, step 5, both dispatched as soon as the first three steps
succeed, whatever their own outcomes) and, inside Cluster step 5, the
final reboot that configure_nodes triggers on success (the trailing tag 2
of the all-success cluster branch). -/
theorem claim2_create_fail_fast_order (c : Cluster) (v : VM) (snapname : String)
    (ω : Oracle) (k : Nat) :
    clusterSteps (c.create ω k).events =
      (if ω k = false then [1]
       else if ω (k + 1) = false then [1, 2]
       else if ω (k + 2) = false then [1, 2, 3]
       else if ω (k + 3) = false then [1, 2, 3, 4]
       else if ω (k + 4) = false then [1, 2, 3, 4, 5]
       else [1, 2, 3, 4, 5, 2]) ∧
    vmSteps (v.create snapname ω k).events =
      (if ω k = false then [1]
       else if ω (k + 1) = false then [1, 2]
       else if ω (k + 2) = false then [1, 2, 3]
       else [1, 2, 3, 4, 5]) := by
  constructor
  · cases h0 : ω k <;>
      [skip; cases h1 : ω (k + 1)] <;>
      [skip; skip; cases h2 : ω (k + 2)] <;>
      [skip; skip; skip; cases h3 : ω (k + 3)] <;>
      [skip; skip; skip; skip; cases h4 : ω (k + 4)] <;>
      simp_all [Cluster.create, Cluster.reset, Cluster.run_shell_on_all,
        Cluster.reboot, Cluster.run_script_on_all, Cluster.create_cluster,
        Cluster.run_shell_on_master_host, Cluster.create_nodes,
        Cluster.configure_nodes, clusterSteps]
    split <;> rfl
  · cases h0 : ω k <;>
      [skip; cases h1 : ω (k + 1)] <;>
      [skip; skip; cases h2 : ω (k + 2)] <;>
      simp_all [VM.create, VM.restore, VM.run_shell_on_host,
        VM.configure_network, VM.run, VM.configure_options, VM.snapshot,
        VM.reboot, vmSteps]

/-- C3 as stated is false: when create_cluster (step 3) fails, only ONE
settle wait (the 30-unit wait after the reboot step) has elapsed when
create() returns failure, not two, because the 10-unit wait is reached
only after step 3 succeeds.  Evaluated on the concrete cluster c1 in an
environment where the first two remote executions succeed and the third
(create_cluster) fails. -/
theorem claim3_counterexample :
    (sampleCluster.create (trueBelow 2) 0).ok = false ∧
    settleWaits (sampleCluster.create (trueBelow 2) 0).events = [30] ∧
    (settleWaits (sampleCluster.create (trueBelow 2) 0).events).length ≠ 2 := by
  refine ⟨rfl, rfl, ?_⟩
  decide

/-- C3 amended: if create_cluster (step 3) fails during Cluster.create,
then create() returns failure after exactly one settle wait (the 30-unit
wait) has elapsed, and steps 4 and 5 (add nodes, configure nodes) are
never dispatched. -/
theorem claim3_cluster_create_fail_step3 (c : Cluster) (ω : Oracle) (k : Nat)
    (h0 : ω k = true) (h1 : ω (k + 1) = true) (h2 : ω (k + 2) = false) :
    c.create ω k =
      ⟨false,
       [Event.narrate ("[step 1] resetting all nodes into the cluster " ++ c.clusterRepr ++ "..."),
        Event.narrate ("reset the cluster with name " ++ c.clusterRepr),
        Event.runShell c.cluster_name resetCommand,
        Event.narrate ("[step 2] reboot all nodes into the cluster " ++ c.cluster_name ++ "..."),
        Event.runScript "reboot.yaml" c.cluster_name [],
        Event.wait 30,
        Event.narrate ("[step 3] create the cluster with name " ++ c.cluster_name ++ "..."),
        Event.narrate ("create cluster into the host " ++ c.cfg.host ++ " for cluster " ++ c.cluster_name),
        Event.runShell c.cfg.host (createClusterCommand c),
        Event.narrate ("[step 3] it is not possible to create the cluster with name " ++ c.cluster_name)],
       k + 3⟩ ∧
    settleWaits (c.create ω k).events = [30] ∧
    clusterSteps (c.create ω k).events = [1, 2, 3] := by
  have h : c.create ω k =
      ⟨false,
       [Event.narrate ("[step 1] resetting all nodes into the cluster " ++ c.clusterRepr ++ "..."),
        Event.narrate ("reset the cluster with name " ++ c.clusterRepr),
        Event.runShell c.cluster_name resetCommand,
        Event.narrate ("[step 2] reboot all nodes into the cluster " ++ c.cluster_name ++ "..."),
        Event.runScript "reboot.yaml" c.cluster_name [],
        Event.wait 30,
        Event.narrate ("[step 3] create the cluster with name " ++ c.cluster_name ++ "..."),
        Event.narrate ("create cluster into the host " ++ c.cfg.host ++ " for cluster " ++ c.cluster_name),
        Event.runShell c.cfg.host (createClusterCommand c),
        Event.narrate ("[step 3] it is not possible to create the cluster with name " ++ c.cluster_name)],
       k + 3⟩ := by
    simp [Cluster.create, Cluster.reset, Cluster.run_shell_on_all, Cluster.reboot,
      Cluster.run_script_on_all, Cluster.create_cluster,
      Cluster.run_shell_on_master_host, h0, h1, h2]
  refine ⟨h, ?_, ?_⟩ <;> (rw [h]; rfl)

/-- C3 witness: the amended theorem evaluated on the concrete cluster c1
in the environment where exactly the first two remote executions
succeed. -/
theorem claim3_witness :
    settleWaits (sampleCluster.create (trueBelow 2) 0).events = [30] ∧
    clusterSteps (sampleCluster.create (trueBelow 2) 0).events = [1, 2, 3] ∧
    (sampleCluster.create (trueBelow 2) 0).ok = false := by
  have h := claim3_cluster_create_fail_step3 sampleCluster (trueBelow 2) 0
    rfl rfl rfl
  exact ⟨h.2.1, h.2.2, by rw [h.1]⟩

/-- C4: in VM.create the 40-unit settle wait is recorded right after the
restore execution for every environment (so regardless of the outcome of
restore, before its result is checked), and when restore fails create()
returns failure with a trace that is exactly the narration, the restore
execution and the wait: configure_network and configure_options are never
dispatched (the attempted-step list is just [1]). -/
theorem claim4_vm_wait_before_check (v : VM) (snapname : String)
    (ω : Oracle) (k : Nat) :
    (v.create snapname ω k).events.take 3 =
      [Event.narrate "restore image into the host...",
       Event.runShell v.cfg.host (restoreCommand v),
       Event.wait 40] ∧
    (ω k = false →
      v.create snapname ω k =
        ⟨false,
         [Event.narrate "restore image into the host...",
          Event.runShell v.cfg.host (restoreCommand v),
          Event.wait 40], k + 1⟩ ∧
      vmSteps (v.create snapname ω k).events = [1]) := by
  constructor
  · cases h0 : ω k <;>
      [skip; cases h1 : ω (k + 1)] <;>
      [skip; skip; cases h2 : ω (k + 2)] <;>
      simp_all [VM.create, VM.restore, VM.run_shell_on_host,
        VM.configure_network, VM.run, VM.configure_options, VM.snapshot,
        VM.reboot]
  · intro h0
    have h : v.create snapname ω k =
        ⟨false,
         [Event.narrate "restore image into the host...",
          Event.runShell v.cfg.host (restoreCommand v),
          Event.wait 40], k + 1⟩ := by
      simp [VM.create, VM.restore, VM.run_shell_on_host, h0]
    exact ⟨h, by rw [h]; rfl⟩

/-- C4 witness: the theorem evaluated on the concrete VM v1 in the
all-failure environment, where restore fails. -/
theorem claim4_witness :
    (sampleVM.create "base" allFalse 0).events.take 3 =
      [Event.narrate "restore image into the host...",
       Event.runShell sampleVM.cfg.host (restoreCommand sampleVM),
       Event.wait 40] ∧
    (sampleVM.create "base" allFalse 0).ok = false ∧
    vmSteps (sampleVM.create "base" allFalse 0).events = [1] := by
  have h := claim4_vm_wait_before_check sampleVM "base" allFalse 0
  exact ⟨h.1, by rw [(h.2 rfl).1], (h.2 rfl).2⟩

/-- C5: VM.create returns success whenever restore, configure_network and
configure_options (the first three remote executions) succeed, with no
assumption at all on the outcomes of the subsequent snapshot and reboot
executions, whose results the code never checks. -/
theorem claim5_vm_create_ignores_tail (v : VM) (snapname : String)
    (ω : Oracle) (k : Nat)
    (h0 : ω k = true) (h1 : ω (k + 1) = true) (h2 : ω (k + 2) = true) :
    (v.create snapname ω k).ok = true := by
  simp [VM.create, VM.restore, VM.run_shell_on_host, VM.configure_network,
    VM.run, VM.configure_options, VM.snapshot, VM.reboot, h0, h1, h2]

/-- C5 witness: the theorem evaluated on the concrete VM v1 in the
environment where exactly the first three remote executions succeed, so
the snapshot and reboot executions both fail and create() still returns
success. -/
theorem claim5_witness :
    (sampleVM.create "base" (trueBelow 3) 0).ok = true ∧
    trueBelow 3 3 = false ∧ trueBelow 3 4 = false :=
  ⟨claim5_vm_create_ignores_tail sampleVM "base" (trueBelow 3) 0 rfl rfl rfl,
   rfl, rfl⟩

/-- C6: Cluster.destroy always dispatches the reset execution and then the
reboot procedure, in that order, in every environment — in particular the
trace is the same when the reset execution fails, since its result gates
nothing. -/
theorem claim6_destroy_unconditional (c : Cluster) (ω : Oracle) (k : Nat) :
    c.destroy ω k =
      ⟨none,
       [Event.narrate ("reset the cluster with name " ++ c.clusterRepr),
        Event.runShell c.cluster_name resetCommand,
        Event.runScript "reboot.yaml" c.cluster_name []], k + 2⟩ ∧
    clusterSteps (c.destroy ω k).events = [1, 2] := by
  have h : c.destroy ω k =
      ⟨none,
       [Event.narrate ("reset the cluster with name " ++ c.clusterRepr),
        Event.runShell c.cluster_name resetCommand,
        Event.runScript "reboot.yaml" c.cluster_name []], k + 2⟩ := by
    simp [Cluster.destroy, Cluster.reset, Cluster.run_shell_on_all,
      Cluster.reboot, Cluster.run_script_on_all]
  exact ⟨h, by rw [h]; rfl⟩

/-- C7 as stated is contradicted by the code: Cluster.destroy (despite its
`-> bool` annotation), Cluster.ping and VM.ping have no return statement,
so each returns None rather than a success/failure value, in every
environment; bool-returning operations such as VM.destroy and
Cluster.reset do propagate the executor verdict. -/
theorem claim7_missing_returns (c : Cluster) (v : VM) (ω : Oracle) (k : Nat) :
    (c.destroy ω k).ret = none ∧
    (c.ping ω k).ret = none ∧
    (v.ping ω k).ret = none ∧
    (v.destroy ω k).ok = ω k ∧
    (c.reset ω k).ok = ω k := by
  simp [Cluster.destroy, Cluster.reset, Cluster.run_shell_on_all,
    Cluster.reboot, Cluster.run_script_on_all, Cluster.ping, VM.ping,
    VM.destroy, VM.run_shell_on_host]

/-- C8: Cluster.configure_nodes dispatches the reboot procedure (step tag
2) if and only if running the configuration script on all member hosts
succeeded; on script failure it returns False after a diagnostic, without
rebooting, and on script success it returns exactly the result of
reboot() (the next executor verdict). -/
theorem claim8_configure_nodes_reboot_iff (c : Cluster) (ω : Oracle) (k : Nat) :
    c.configure_nodes ω k =
      (if ω k then
        ⟨ω (k + 1),
         [Event.runShell c.cluster_name configureNodesCommand,
          Event.runScript "reboot.yaml" c.cluster_name []], k + 2⟩
      else
        ⟨false,
         [Event.runShell c.cluster_name configureNodesCommand,
          Event.narrate "it is not possible to configure nodes..."], k + 1⟩) ∧
    (2 ∈ clusterSteps (c.configure_nodes ω k).events ↔ ω k = true) := by
  cases h : ω k <;>
    simp [Cluster.configure_nodes, Cluster.run_shell_on_all, Cluster.reboot,
      Cluster.run_script_on_all, clusterSteps, h]

/-- C9: the command VM.configure_options executes on the host of the VM
contains the PCI-passthrough instruction exactly when the configured
device string is non-empty (the instruction count is 2 in that case and 1
otherwise), and always ends with the boot-on-startup instruction. -/
theorem claim9_configure_options_pci (v : VM) (ω : Oracle) (k : Nat) :
    v.configure_options ω k =
      ⟨ω k,
       [Event.runShell v.cfg.host
         ⟨"set VM options...",
          (if v.cfg.pci = "" then [] else
            ["qm set " ++ toString v.cfg.vmid ++ " -hostpci0 " ++ v.cfg.pci]) ++
          ["qm set " ++ toString v.cfg.vmid ++ " --onboot 1"]⟩], k + 1⟩ ∧
    (configureOptionsCommand v).instructions.length =
      (if v.cfg.pci = "" then 1 else 2) ∧
    (configureOptionsCommand v).instructions.getLastD "" =
      "qm set " ++ toString v.cfg.vmid ++ " --onboot 1" := by
  by_cases h : v.cfg.pci = "" <;>
    simp [VM.configure_options, VM.run_shell_on_host, configureOptionsCommand,
      Command.new, Command.append, h]

/-- C10: a VM facade constructed without the dry_run argument is in
dry-run mode (default True) while a Cluster facade constructed without it
is in real-execution mode (default False); whatever the remaining
constructor arguments are, the two defaults are opposite. -/
theorem claim10_default_modes_opposite (vn cn : String) (vv cv : Option Bool)
    (vcfg : VmCfg) (ini : String) (ccfg : ClusterCfg) :
    (VM.init vn none vv vcfg ini).dry_run = true ∧
    (Cluster.init cn none cv ccfg).dry_run = false ∧
    (VM.init vn none vv vcfg ini).dry_run ≠
      (Cluster.init cn none cv ccfg).dry_run := by
  simp [VM.init, Cluster.init]

end Datacenter
